import Mathlib

/-!
Shallow embedding of the Stroke_Prediction repository
(`src/main.py` and `src/help_tool/help_tool.py`) and proofs about it.

Python floats are modelled as rationals (`ℚ`), Python ints as `ℤ`/`ℕ`,
Python strings as `String` or `List Char` (where substring surgery is
needed), binary class labels as `Bool`.  Library collaborators whose
numeric output is irrational (`np.std`, `scipy` ppf functions, square
roots) are passed in as function parameters, since only control flow and
rational arithmetic are at stake in the claims.
-/

/-! ### Module-level statistical constants (`help_tool.py`, lines 24-25) -/

def alpha : ℚ := 5 / 100

def confidence_level : ℚ := 95 / 100

/-! ### Serving façade (`src/main.py`) -/

/-- The request schema of `POST /predict` (`main.py`, class `Stroke_Event`):
sixteen required numeric fields. -/
structure Stroke_Event where
  Age : ℚ
  Hypertension : ℤ
  Heart_disease : ℤ
  Avg_glucose_level : ℚ
  Bmi : ℚ
  Gender_Female : ℤ
  Ever_married : ℤ
  Residence_Urban : ℤ
  Smoking_status_was_missing : ℤ
  Bmi_was_missing : ℤ
  Work_type_Govt_job : ℤ
  Work_type_Private : ℤ
  Work_type_Self_employed : ℤ
  Smoking_status_formerly_smoked : ℤ
  Smoking_status_never_smoked : ℤ
  Smoking_status_smokes : ℤ

/-- The response schema of `POST /predict` (`main.py`, class `PredictionOut`). -/
structure PredictionOut where
  default_proba : ℚ

/-- The decision rule of `main.py`, line 50:
`(predictions > 0.545455).astype(int)`, generalized over the threshold as in
the comparison expression itself: label 1 on strict exceedance, else 0. -/
def decideLabel (score threshold : ℚ) : ℤ :=
  if score > threshold then 1 else 0

/-- The literal threshold of `main.py`, line 50. -/
def predictThreshold : ℚ := 545455 / 1000000

/-- The `POST /predict` handler (`main.py`, lines 45-53).  The loaded model's
`predict_proba(...)[0, 1]` call is modelled by `model`, a function from the
payload row to the positive-class probability. -/
def predict (model : Stroke_Event → ℚ) (payload : Stroke_Event) : PredictionOut :=
  let predictions : ℚ := model payload
  let adjusted_predictions : ℤ := decideLabel predictions predictThreshold
  { default_proba := (adjusted_predictions : ℚ) }

/-! ### Scorer adapter (`help_tool.py`, lines 321-324 and 253-256) -/

/-- A classifier object as the scoring code sees it: it may or may not have a
`decision_function` attribute (margin per row) and may or may not have a
`predict_proba` attribute (two class probabilities per row). -/
structure Model (α : Type) where
  decision_function : Option (α → ℚ)
  predict_proba : Option (α → ℚ × ℚ)

/-- The duck-typed scorer dispatch shared by `plot_roc_curve` (lines 321-324)
and `model_selection_recall` (lines 253-256):
`if hasattr(model, 'decision_function'): y_prob = model.decision_function(X)`
`else: y_prob = model.predict_proba(X)[:, 1]`.
When neither attribute exists, the attribute access fails — the spec's
`UnsupportedClassifier` error. -/
def scorer_adapter {α : Type} (model : Model α) (X : List α) : Except String (List ℚ) :=
  match model.decision_function with
  | some f => .ok (X.map f)
  | none =>
    match model.predict_proba with
    | some p => .ok (X.map fun x => (p x).2)
    | none => .error "UnsupportedClassifier"

/-! ### Binary-classification metrics

`cross_validation_plots` (lines 350-352) scores folds with
`cross_val_score(clf, X, y, scoring='accuracy' | 'precision' | 'recall')`.
The precision/recall/F1 scorers are sklearn's, embedded here with their
default `zero_division` behaviour: a zero denominator yields 0 (with a
warning), never an exception. -/

def tpCount (y y_pred : List Bool) : ℕ :=
  ((y.zip y_pred).filter fun p => p.1 && p.2).length

def fpCount (y y_pred : List Bool) : ℕ :=
  ((y.zip y_pred).filter fun p => !p.1 && p.2).length

def fnCount (y y_pred : List Bool) : ℕ :=
  ((y.zip y_pred).filter fun p => p.1 && !p.2).length

def tnCount (y y_pred : List Bool) : ℕ :=
  ((y.zip y_pred).filter fun p => !p.1 && !p.2).length

/-- sklearn `precision_score` with default zero division: tp/(tp+fp), 0 on
empty denominator. -/
def precision_score (y y_pred : List Bool) : ℚ :=
  if tpCount y y_pred + fpCount y y_pred = 0 then 0
  else (tpCount y y_pred : ℚ) / ((tpCount y y_pred : ℚ) + (fpCount y y_pred : ℚ))

/-- sklearn `recall_score` with default zero division: tp/(tp+fn), 0 on empty
denominator. -/
def recall_score (y y_pred : List Bool) : ℚ :=
  if tpCount y y_pred + fnCount y y_pred = 0 then 0
  else (tpCount y y_pred : ℚ) / ((tpCount y y_pred : ℚ) + (fnCount y y_pred : ℚ))

/-- sklearn `f1_score` with default zero division: 2tp/(2tp+fp+fn), 0 on empty
denominator. -/
def f1_score (y y_pred : List Bool) : ℚ :=
  if 2 * tpCount y y_pred + fpCount y y_pred + fnCount y y_pred = 0 then 0
  else (2 * tpCount y y_pred : ℚ) /
    ((2 * tpCount y y_pred : ℚ) + (fpCount y y_pred : ℚ) + (fnCount y y_pred : ℚ))

/-! ### Cross-validated confusion matrices (`help_tool.py`, lines 389-405)

`cross_validation_matrix` calls `y_pred = cross_val_predict(classifier, X, y,
cv=10)` and then `cm = confusion_matrix(y, y_pred)`.  `cross_val_predict`
produces one out-of-fold prediction per row: the rows are partitioned into
folds (sklearn uses a stratified 10-fold split here; the fold partition is a
parameter below, and the theorems hold for every partition), and row `i` is
predicted by the classifier refit on all rows outside row `i`'s fold.  The
refit-then-predict step of an opaque sklearn classifier is modelled by `fit`,
a function from a training set to a predictor. -/

/-- A 2×2 confusion matrix: rows = true label, columns = predicted label. -/
structure CM where
  tn : ℕ
  fp : ℕ
  fn : ℕ
  tp : ℕ
deriving DecidableEq

/-- Total of the four entries of a confusion matrix. -/
def CM.total (m : CM) : ℕ := m.tn + m.fp + m.fn + m.tp

/-- sklearn `confusion_matrix` on binary labels. -/
def confusion_matrix (y y_pred : List Bool) : CM :=
  { tn := tnCount y y_pred
    fp := fpCount y y_pred
    fn := fnCount y y_pred
    tp := tpCount y y_pred }

/-- `cross_val_predict(classifier, X, y, cv=10)`: one prediction per row,
each produced by the classifier refit on every row outside that row's fold.
`rows` pairs each feature row with its label; `folds` is the index partition
produced by the splitter. -/
def cross_val_predict {α : Type} (fit : List (α × Bool) → α → Bool)
    (folds : List (List ℕ)) (rows : List (α × Bool)) : List Bool :=
  rows.enum.map fun ir =>
    let k := folds.findIdx fun f => f.contains ir.1
    let test := folds.getD k []
    let train := (rows.enum.filter fun jr => !(test.contains jr.1)).map (·.2)
    fit train ir.2.1

/-- `cross_validation_matrix` (lines 389-405), reduced to the data it
computes: for each classifier, the confusion matrix of the ground truth
against the out-of-fold predictions (the function then only draws heatmaps). -/
def cross_validation_matrix {α : Type} (fits : List (List (α × Bool) → α → Bool))
    (folds : List (List ℕ)) (rows : List (α × Bool)) : List CM :=
  fits.map fun fit => confusion_matrix (rows.map (·.2)) (cross_val_predict fit folds rows)

/-! ### Cross-validated scalar metrics (`help_tool.py`, lines 345-365)

`cross_validation_plots` computes, for each classifier, the per-fold
accuracy/precision/recall scores through `cross_val_score` (an opaque sklearn
call, modelled as the parameter `cross_val_score`) and builds one result dict
per classifier; `pd.DataFrame(cv_results)` turns the dict keys, in insertion
order, into the table's columns. -/

/-- The three `scoring=` strings passed to `cross_val_score`. -/
inductive Scoring
  | accuracy
  | precision
  | recall
deriving DecidableEq

/-- Arithmetic mean (`np.mean`) of a list of rationals. -/
def npMean (l : List ℚ) : ℚ := l.sum / l.length

/-- One entry of `cv_results` (lines 354-363): the dict built per classifier,
fields in the source's key order. -/
structure CVRow where
  Classifier : String
  CV_Mean_Accuracy : ℚ
  CV_Mean_Precision : ℚ
  CV_Mean_Recall : ℚ
  Std_Accuracy : ℚ
  Accuracy : List ℚ
  Precision : List ℚ
  Recall : List ℚ
deriving DecidableEq

/-- The column labels of `pd.DataFrame(cv_results)`: the dict keys of lines
355-362 in insertion order. -/
def cvColumns : List String :=
  ["Classifier", "CV Mean Accuracy", "CV Mean Precision", "CV Mean Recall",
   "Std Accuracy", "Accuracy", "Precision", "Recall"]

/-- The data computed by `cross_validation_plots` (lines 345-365): one row per
classifier, in input order.  `className` models `clf.__class__.__name__`,
`npStd` models `np.std`, and `cross_val_score clf s` models
`cross_val_score(clf, X, y, cv=fold, scoring=s)`, the list of per-fold scores. -/
def cross_validation_plots {C : Type} (className : C → String)
    (npStd : List ℚ → ℚ) (cross_val_score : C → Scoring → List ℚ)
    (classifiers : List C) : List CVRow :=
  classifiers.map fun clf =>
    { Classifier := className clf
      CV_Mean_Accuracy := npMean (cross_val_score clf .accuracy)
      CV_Mean_Precision := npMean (cross_val_score clf .precision)
      CV_Mean_Recall := npMean (cross_val_score clf .recall)
      Std_Accuracy := npStd (cross_val_score clf .accuracy)
      Accuracy := cross_val_score clf .accuracy
      Precision := cross_val_score clf .precision
      Recall := cross_val_score clf .recall }

/-! ### Threshold store and threshold-driven cross-validation loop (spec §4.2, §4.5)

No ThresholdTable or threshold-driven cross-validation loop exists anywhere
under `src/`; the spec describes them as part of the evaluation pipeline, so
they are modelled here from the spec's words alone. -/

/-- Modelled from the spec: the repository's source contains no ThresholdTable
lookup; this models §4.2's contract `lookup(label) -> threshold`, failing with
`MissingThreshold` if `label` has no entry. -/
def lookupThreshold (table : List (String × ℚ)) (label : String) : Except String ℚ :=
  match table.find? fun e => e.1 == label with
  | some e => .ok e.2
  | none => .error "MissingThreshold"

/-- Modelled from the spec: the repository's source contains no
threshold-driven cross-validation loop; this models §4.5's contract.  Before
any fitting, every classifier label in the mapping is checked against the
ThresholdTable; only when all are present does the loop run, producing one
`(label, fold)` refit event per classifier per fold. -/
def cross_validation_loop (table : List (String × ℚ)) (models : List String)
    (K : ℕ) : Except String (List (String × ℕ)) :=
  match models.find? fun l => (table.find? fun e => e.1 == l).isNone with
  | some _ => .error "MissingThreshold"
  | none => .ok (models.flatMap fun l => (List.range K).map fun k => (l, k))

/-! ### Categorical encoding (`help_tool.py`, lines 43-55)

Column names are modelled as `List Char`; Python's `str.replace` (all
occurrences, scanning left to right) and `str.endswith` are embedded on that
representation.  `pd.get_dummies(df[feature_list])` turns each nominal
feature `f` into one indicator column `f_<category>` per category, categories
in sorted order (for a Yes/No feature: `f_No` then `f_Yes`). -/

/-- Fuel-indexed worker for `pyReplace`; the fuel starts at the string length,
which bounds the number of scan steps. -/
def replaceGo (pat rep : List Char) : ℕ → List Char → List Char
  | 0, s => s
  | _ + 1, [] => []
  | fuel + 1, c :: rest =>
    if 0 < pat.length ∧ pat.isPrefixOf (c :: rest) then
      rep ++ replaceGo pat rep fuel ((c :: rest).drop pat.length)
    else
      c :: replaceGo pat rep fuel rest

/-- Python `s.replace(pat, rep)` for a nonempty pattern: replace every
occurrence of `pat` in `s` by `rep`, scanning left to right. -/
def pyReplace (s pat rep : List Char) : List Char :=
  replaceGo pat rep s.length s

/-- Column names of `pd.get_dummies(df[feature_list])`: for each listed
feature, one `f_<category>` column per category of `f` (`cats f`, in pandas'
sorted order). -/
def get_dummies (cats : List Char → List (List Char))
    (feature_list : List (List Char)) : List (List Char) :=
  feature_list.flatMap fun f => (cats f).map fun v => f ++ '_' :: v

/-- `dummy_columns` (lines 43-55) at the column-name level: concatenate the
frame with the dummies of the listed features, drop the original feature
columns, drop every column whose name ends with `_No`, and remove `_Yes`
from every remaining column name. -/
def dummy_columns (cols : List (List Char)) (cats : List Char → List (List Char))
    (feature_list : List (List Char)) : List (List Char) :=
  let df_dummies := get_dummies cats feature_list
  let df1 := cols ++ df_dummies
  let df2 := df1.filter fun c => !(feature_list.contains c)
  let df3 := df2.filter fun c => !(("_No".data).isSuffixOf c)
  df3.map fun c => pyReplace c ("_Yes".data) []

/-! ### Confidence intervals (`help_tool.py`, lines 221-242)

`confidence_intervals(data, type)` assigns `sample_std` and `critical_value`
only inside the `if type == 'Continuous'` / `elif type == 'Discrete'`
branches and then uses them unconditionally; for any other `type` the use
raises `UnboundLocalError`, modelled as `none`.  The irrational collaborators
`scipy.stats.norm.ppf`, `scipy.stats.t.ppf` and `np.sqrt` are parameters. -/

/-- `confidence_intervals` (lines 221-242): `some (lower, upper)` when the
interval is printed, `none` when the unassigned locals are hit. -/
def confidence_intervals (normPpf : ℚ → ℚ) (tPpf : ℚ → ℚ → ℚ) (sqrt : ℚ → ℚ)
    (data : List ℚ) (type : String) : Option (ℚ × ℚ) :=
  let sample_mean := npMean data
  let assigned : Option (ℚ × ℚ) :=
    if type = "Continuous" then
      some (sqrt (((data.map fun x => (x - sample_mean) ^ 2).sum) / ((data.length : ℚ) - 1)),
        normPpf ((1 + confidence_level) / 2))
    else if type = "Discrete" then
      some (sqrt (((data.map fun x => (x - sample_mean) ^ 2).sum) / ((data.length : ℚ) - 1)),
        tPpf ((1 + confidence_level) / 2) ((data.length : ℚ) - 1))
    else none
  match assigned with
  | none => none
  | some sz =>
    let standard_error := sz.1 / sqrt (data.length : ℚ)
    let margin_of_error := sz.2 * standard_error
    some (sample_mean - margin_of_error, sample_mean + margin_of_error)

/-! ## Helper lemmas -/

lemma tpCount_eq_zero_of_no_pred_pos {y y_pred : List Bool}
    (h : y_pred.count true = 0) : tpCount y y_pred = 0 := by
  unfold tpCount
  rw [List.length_eq_zero, List.filter_eq_nil_iff]
  intro p hp hpred
  rcases List.of_mem_zip hp with ⟨-, h2⟩
  rw [List.count_eq_zero] at h
  rcases p with ⟨a, b⟩
  simp only [Bool.and_eq_true] at hpred
  exact h (hpred.2 ▸ h2)

lemma tpCount_eq_zero_of_no_true_pos {y y_pred : List Bool}
    (h : y.count true = 0) : tpCount y y_pred = 0 := by
  unfold tpCount
  rw [List.length_eq_zero, List.filter_eq_nil_iff]
  intro p hp hpred
  rcases List.of_mem_zip hp with ⟨h1, -⟩
  rw [List.count_eq_zero] at h
  rcases p with ⟨a, b⟩
  simp only [Bool.and_eq_true] at hpred
  exact h (hpred.1 ▸ h1)

lemma metrics_eq_zero_of_tp_eq_zero {y y_pred : List Bool}
    (h : tpCount y y_pred = 0) :
    precision_score y y_pred = 0 ∧ recall_score y y_pred = 0 ∧
      f1_score y y_pred = 0 := by
  refine ⟨?_, ?_, ?_⟩ <;> simp [precision_score, recall_score, f1_score, h]

lemma counts_partition (y y_pred : List Bool) :
    tnCount y y_pred + fpCount y y_pred + fnCount y y_pred + tpCount y y_pred
      = (y.zip y_pred).length := by
  unfold tnCount fpCount fnCount tpCount
  induction y.zip y_pred with
  | nil => rfl
  | cons p rest ih =>
    rcases p with ⟨a, b⟩
    cases a <;> cases b <;> simp [List.filter_cons] <;> omega

lemma confusion_matrix_total (y y_pred : List Bool) (h : y_pred.length = y.length) :
    (confusion_matrix y y_pred).total = y.length := by
  have hz : (y.zip y_pred).length = y.length := by
    rw [List.length_zip, h, min_self]
  simpa [confusion_matrix, CM.total, hz] using counts_partition y y_pred

lemma cross_val_predict_length {α : Type} (fit : List (α × Bool) → α → Bool)
    (folds : List (List ℕ)) (rows : List (α × Bool)) :
    (cross_val_predict fit folds rows).length = rows.length := by
  simp [cross_val_predict]

/-! ## Claim theorems -/

/-- C1: for every model and every valid 16-field payload, `POST /predict`
responds with `default_proba` equal to the binarized decision — 1 exactly
when the model's positive-class probability strictly exceeds the literal
threshold `0.545455`, else 0; the response is always 0 or 1 (never a raw
probability), a score of 0.6 yields 1, and a score of 0.5 yields 0. -/
theorem predict_binarizes (model : Stroke_Event → ℚ) (payload : Stroke_Event) :
    ((predict model payload).default_proba
        = if model payload > 545455 / 1000000 then 1 else 0)
      ∧ ((predict model payload).default_proba = 0
          ∨ (predict model payload).default_proba = 1)
      ∧ (predict (fun _ => 6 / 10) payload).default_proba = 1
      ∧ (predict (fun _ => 5 / 10) payload).default_proba = 0 := by
  refine ⟨?_, ?_, ?_, ?_⟩
  · simp only [predict, decideLabel, predictThreshold]
    split <;> simp [*]
  · simp only [predict, decideLabel]
    split <;> simp
  · norm_num [predict, decideLabel, predictThreshold]
  · norm_num [predict, decideLabel, predictThreshold]

/-- C2: the decision rule of the pipeline yields 1 iff the score strictly
exceeds the threshold, yields 0 at a tie, and the serving endpoint's
binarization is exactly this rule applied at the literal threshold — the
file's sole binarization. -/
theorem decideLabel_strict (s t : ℚ) :
    (decideLabel s t = 1 ↔ s > t)
      ∧ (decideLabel s t = 0 ↔ ¬ s > t)
      ∧ decideLabel s s = 0
      ∧ ∀ model payload, (predict model payload).default_proba
          = ((decideLabel (model payload) predictThreshold : ℤ) : ℚ) := by
  refine ⟨?_, ?_, ?_, fun model payload => rfl⟩
  · unfold decideLabel
    split <;> simp [*]
  · unfold decideLabel
    split <;> simp [*]
  · simp [decideLabel]

theorem decideLabel_strict_witness :
    decideLabel 1 0 = 1 ∧ decideLabel 0 0 = 0 :=
  ⟨(decideLabel_strict 1 0).1.mpr one_pos, (decideLabel_strict 0 0).2.2.1⟩

/-- C3: the scorer adapter uses the raw `decision_function` margin when that
attribute is present, otherwise the positive-class (index 1) probability of
`predict_proba`, and with neither capability it fails with
`UnsupportedClassifier`. -/
theorem scorer_adapter_cases {α : Type} (X : List α) (f : α → ℚ) (p : α → ℚ × ℚ)
    (pp : Option (α → ℚ × ℚ)) :
    scorer_adapter ⟨some f, pp⟩ X = .ok (X.map f)
      ∧ scorer_adapter ⟨none, some p⟩ X = .ok (X.map fun x => (p x).2)
      ∧ scorer_adapter (⟨none, none⟩ : Model α) X = .error "UnsupportedClassifier" :=
  ⟨rfl, rfl, rfl⟩

/-- C7: whenever the classifier predicts no positives or the ground truth
contains no positives, precision, recall and F1 all evaluate to 0 (never an
error). -/
theorem metrics_zero_denominator (y y_pred : List Bool)
    (h : y_pred.count true = 0 ∨ y.count true = 0) :
    precision_score y y_pred = 0 ∧ recall_score y y_pred = 0
      ∧ f1_score y y_pred = 0 := by
  rcases h with h | h
  · exact metrics_eq_zero_of_tp_eq_zero (tpCount_eq_zero_of_no_pred_pos h)
  · exact metrics_eq_zero_of_tp_eq_zero (tpCount_eq_zero_of_no_true_pos h)

theorem metrics_zero_denominator_witness :
    precision_score [true, false, false] [false, false, false] = 0
      ∧ recall_score [true, false, false] [false, false, false] = 0
      ∧ f1_score [true, false, false] [false, false, false] = 0 :=
  metrics_zero_denominator [true, false, false] [false, false, false]
    (Or.inl (by decide))

/-- C10: `confidence_intervals` produces an interval exactly for the type
strings `Continuous` and `Discrete`; for any other type argument the locals
`sample_std` and `critical_value` are never assigned before use and the call
fails instead of printing an interval. -/
theorem confidence_intervals_domain (normPpf : ℚ → ℚ) (tPpf : ℚ → ℚ → ℚ)
    (sqrt : ℚ → ℚ) (data : List ℚ) (type : String) :
    (confidence_intervals normPpf tPpf sqrt data type).isSome
        = (type == "Continuous" || type == "Discrete")
      ∧ confidence_intervals normPpf tPpf sqrt data "Ordinal" = none := by
  constructor
  · unfold confidence_intervals
    rcases eq_or_ne type "Continuous" with h1 | h1
    · subst h1
      simp
    · rcases eq_or_ne type "Discrete" with h2 | h2
      · subst h2
        simp [h1]
      · simp [h1, h2]
  · rfl

/-- C4 counterexample: with ten rows, the ten singleton folds and one
classifier, the confusion matrix produced by `cross_validation_matrix` has
entries totalling N = 10, not N/K = 10/10 = 1 as the claim states. -/
theorem cross_validation_matrix_not_averaged :
    (cross_validation_matrix [fun _ _ => false]
        ((List.range 10).map fun i => [i])
        ((List.range 10).map fun i => (i, decide (i % 2 = 0)))).map CM.total = [10]
      ∧ (10 : ℕ) / 10 = 1 ∧ (10 : ℕ) ≠ 1 := by
  refine ⟨by decide, by decide, by decide⟩

/-- C4 amended: every confusion matrix returned by `cross_validation_matrix`
is computed once from the out-of-fold predictions of all N rows, so its
entries total N (the full row count) for every fold partition and every
classifier — not the fold-averaged N/K of the claim. -/
theorem cross_validation_matrix_total (α : Type)
    (fits : List (List (α × Bool) → α → Bool))
    (folds : List (List ℕ)) (rows : List (α × Bool)) :
    ∀ m ∈ cross_validation_matrix fits folds rows, m.total = rows.length := by
  intro m hm
  rcases List.mem_map.1 hm with ⟨fit, -, rfl⟩
  have hlen : (cross_val_predict fit folds rows).length = (rows.map (·.2)).length := by
    rw [cross_val_predict_length, List.length_map]
  have h := confusion_matrix_total (rows.map (·.2)) (cross_val_predict fit folds rows) hlen
  rwa [List.length_map] at h

theorem cross_validation_matrix_total_witness :
    (⟨1, 0, 1, 0⟩ : CM).total = 2 :=
  cross_validation_matrix_total ℕ [fun _ _ => false] [[0], [1]]
    [(0, true), (1, false)] ⟨1, 0, 1, 0⟩ (by decide)

/-- C5 counterexample: the columns of the table built by
`cross_validation_plots` are not {Classifier, Accuracy, Precision, Recall,
F1, AUC}; no F1 or AUC column exists at all. -/
theorem cvColumns_not_as_claimed :
    cvColumns ≠ ["Classifier", "Accuracy", "Precision", "Recall", "F1", "AUC"]
      ∧ "F1" ∉ cvColumns ∧ "AUC" ∉ cvColumns := by
  refine ⟨by decide, by decide, by decide⟩

/-- C5 amended: the table built by `cross_validation_plots` has one row per
classifier in input order (insertion order preserved), its CV-mean
accuracy/precision/recall entries are the arithmetic means of the per-fold
scores, and its fold-score list columns hold those per-fold scores verbatim;
its columns are {Classifier, CV Mean Accuracy, CV Mean Precision, CV Mean
Recall, Std Accuracy, Accuracy, Precision, Recall}, with no F1 or AUC. -/
theorem cross_validation_plots_rows (C : Type) (className : C → String)
    (npStd : List ℚ → ℚ) (cvs : C → Scoring → List ℚ) (classifiers : List C) :
    ((cross_validation_plots className npStd cvs classifiers).map (·.Classifier)
        = classifiers.map className)
      ∧ (∀ r ∈ cross_validation_plots className npStd cvs classifiers,
          ∃ clf ∈ classifiers,
            r.Classifier = className clf
            ∧ r.CV_Mean_Accuracy
                = (cvs clf .accuracy).sum / ((cvs clf .accuracy).length : ℚ)
            ∧ r.CV_Mean_Precision
                = (cvs clf .precision).sum / ((cvs clf .precision).length : ℚ)
            ∧ r.CV_Mean_Recall
                = (cvs clf .recall).sum / ((cvs clf .recall).length : ℚ)
            ∧ r.Accuracy = cvs clf .accuracy
            ∧ r.Precision = cvs clf .precision
            ∧ r.Recall = cvs clf .recall)
      ∧ cvColumns = ["Classifier", "CV Mean Accuracy", "CV Mean Precision",
          "CV Mean Recall", "Std Accuracy", "Accuracy", "Precision", "Recall"] := by
  refine ⟨?_, ?_, rfl⟩
  · simp [cross_validation_plots]
  · intro r hr
    rcases List.mem_map.1 hr with ⟨clf, hclf, rfl⟩
    exact ⟨clf, hclf, rfl, rfl, rfl, rfl, rfl, rfl, rfl⟩

theorem cross_validation_plots_rows_witness :
    ∃ clf ∈ ["A"],
      (⟨"A", 2, 2, 2, 0, [1, 3], [1, 3], [1, 3]⟩ : CVRow).Classifier
          = (fun _ : String => "A") clf
        ∧ (⟨"A", 2, 2, 2, 0, [1, 3], [1, 3], [1, 3]⟩ : CVRow).CV_Mean_Accuracy
          = ([1, 3] : List ℚ).sum / ((([1, 3] : List ℚ).length : ℕ) : ℚ)
        ∧ (⟨"A", 2, 2, 2, 0, [1, 3], [1, 3], [1, 3]⟩ : CVRow).CV_Mean_Precision
          = ([1, 3] : List ℚ).sum / ((([1, 3] : List ℚ).length : ℕ) : ℚ)
        ∧ (⟨"A", 2, 2, 2, 0, [1, 3], [1, 3], [1, 3]⟩ : CVRow).CV_Mean_Recall
          = ([1, 3] : List ℚ).sum / ((([1, 3] : List ℚ).length : ℕ) : ℚ)
        ∧ (⟨"A", 2, 2, 2, 0, [1, 3], [1, 3], [1, 3]⟩ : CVRow).Accuracy = [1, 3]
        ∧ (⟨"A", 2, 2, 2, 0, [1, 3], [1, 3], [1, 3]⟩ : CVRow).Precision = [1, 3]
        ∧ (⟨"A", 2, 2, 2, 0, [1, 3], [1, 3], [1, 3]⟩ : CVRow).Recall = [1, 3] :=
  (cross_validation_plots_rows String (fun _ => "A") (fun _ => 0)
      (fun _ _ => [1, 3]) ["A"]).2.1
    ⟨"A", 2, 2, 2, 0, [1, 3], [1, 3], [1, 3]⟩
    (by simp [cross_validation_plots, npMean]; norm_num)

/-- C6 (spec-modelled): if any classifier label in the model mapping has no
ThresholdTable entry — i.e. its lookup fails with `MissingThreshold` — the
cross-validation loop fails with `MissingThreshold` before producing any
refit event: the fail-fast check precedes all fitting. -/
theorem cross_validation_loop_fail_fast (table : List (String × ℚ))
    (models : List String) (K : ℕ) (l : String) (hl : l ∈ models)
    (hm : lookupThreshold table l = .error "MissingThreshold") :
    cross_validation_loop table models K = .error "MissingThreshold" := by
  have hnone : (table.find? fun e => e.1 == l).isNone = true := by
    unfold lookupThreshold at hm
    cases h : table.find? fun e => e.1 == l with
    | none => rfl
    | some e => rw [h] at hm; cases hm
  unfold cross_validation_loop
  cases hfind : models.find? fun l' => (table.find? fun e => e.1 == l').isNone with
  | none =>
    rw [List.find?_eq_none] at hfind
    exact absurd hnone (by simpa using hfind l hl)
  | some _ => rfl

theorem cross_validation_loop_fail_fast_witness :
    cross_validation_loop [("A", 1 / 2)] ["A", "B"] 5 = .error "MissingThreshold" :=
  cross_validation_loop_fail_fast [("A", 1 / 2)] ["A", "B"] 5 "B"
    (by decide) rfl

lemma dummy_block_collapses (fl : List (List Char))
    (cats : List Char → List (List Char)) (fl' : List (List Char))
    (h0 : ∀ f ∈ fl', cats f = ["No".data, "Yes".data])
    (h1 : ∀ f ∈ fl', fl.contains (f ++ '_' :: "No".data) = false)
    (h2 : ∀ f ∈ fl', fl.contains (f ++ '_' :: "Yes".data) = false)
    (h3 : ∀ f ∈ fl', ("_No".data).isSuffixOf (f ++ '_' :: "No".data) = true)
    (h4 : ∀ f ∈ fl', ("_No".data).isSuffixOf (f ++ '_' :: "Yes".data) = false)
    (h5 : ∀ f ∈ fl', pyReplace (f ++ '_' :: "Yes".data) ("_Yes".data) [] = f) :
    (((get_dummies cats fl').filter fun c => !(fl.contains c)).filter
        fun c => !(("_No".data).isSuffixOf c)).map (fun c => pyReplace c ("_Yes".data) [])
      = fl' := by
  induction fl' with
  | nil => rfl
  | cons f rest ih =>
    have hf : f ∈ f :: rest := List.mem_cons_self f rest
    have hblock :
        ((((cats f).map fun v => f ++ '_' :: v).filter fun c => !(fl.contains c)).filter
            fun c => !(("_No".data).isSuffixOf c)).map (fun c => pyReplace c ("_Yes".data) [])
          = [f] := by
      have h1' : f ++ '_' :: "No".data ∉ fl := by simpa using h1 f hf
      have h2' : f ++ '_' :: "Yes".data ∉ fl := by simpa using h2 f hf
      rw [h0 f hf]
      simp [List.filter_cons, h1', h2', h3 f hf, h4 f hf, h5 f hf]
    have hsplit : get_dummies cats (f :: rest)
        = ((cats f).map fun v => f ++ '_' :: v) ++ get_dummies cats rest := by
      simp [get_dummies]
    rw [hsplit, List.filter_append, List.filter_append, List.map_append, hblock,
      ih (fun g hg => h0 g (List.mem_cons_of_mem f hg))
        (fun g hg => h1 g (List.mem_cons_of_mem f hg))
        (fun g hg => h2 g (List.mem_cons_of_mem f hg))
        (fun g hg => h3 g (List.mem_cons_of_mem f hg))
        (fun g hg => h4 g (List.mem_cons_of_mem f hg))
        (fun g hg => h5 g (List.mem_cons_of_mem f hg))]
    rfl

/-- C8: for every DataFrame and feature list of Yes/No nominal features
(whose names are not themselves entangled with the `_Yes`/`_No` naming
scheme), `dummy_columns` turns each listed feature into indicator columns,
drops the `_No` indicator and the original feature columns, and strips the
`_Yes` suffix from the retained indicator: the result is the processed
pre-existing columns followed by exactly one column named `<Feature>` (not
`<Feature>_Yes`) per listed feature. -/
theorem dummy_columns_encoding (cols fl : List (List Char))
    (cats : List Char → List (List Char))
    (hsub : ∀ f ∈ fl, f ∈ cols)
    (h0 : ∀ f ∈ fl, cats f = ["No".data, "Yes".data])
    (h1 : ∀ f ∈ fl, fl.contains (f ++ '_' :: "No".data) = false)
    (h2 : ∀ f ∈ fl, fl.contains (f ++ '_' :: "Yes".data) = false)
    (h3 : ∀ f ∈ fl, ("_No".data).isSuffixOf (f ++ '_' :: "No".data) = true)
    (h4 : ∀ f ∈ fl, ("_No".data).isSuffixOf (f ++ '_' :: "Yes".data) = false)
    (h5 : ∀ f ∈ fl, pyReplace (f ++ '_' :: "Yes".data) ("_Yes".data) [] = f) :
    dummy_columns cols cats fl
        = (((cols.filter fun c => !(fl.contains c)).filter
            fun c => !(("_No".data).isSuffixOf c)).map fun c => pyReplace c ("_Yes".data) [])
          ++ fl
      ∧ ∀ f ∈ fl, f ∈ dummy_columns cols cats fl := by
  have hmain : dummy_columns cols cats fl
      = (((cols.filter fun c => !(fl.contains c)).filter
          fun c => !(("_No".data).isSuffixOf c)).map fun c => pyReplace c ("_Yes".data) [])
        ++ fl := by
    simp only [dummy_columns]
    rw [List.filter_append, List.filter_append, List.map_append,
      dummy_block_collapses fl cats fl h0 h1 h2 h3 h4 h5]
  exact ⟨hmain, fun f hf => hmain ▸ List.mem_append_right _ hf⟩

theorem dummy_columns_encoding_witness :
    "Hypertension".data ∈ dummy_columns ["Id".data, "Hypertension".data]
        (fun _ => ["No".data, "Yes".data]) ["Hypertension".data] :=
  (dummy_columns_encoding ["Id".data, "Hypertension".data] ["Hypertension".data]
      (fun _ => ["No".data, "Yes".data]) (by decide) (by decide) (by decide)
      (by decide) (by decide) (by decide) (by decide)).2
    "Hypertension".data (by decide)

/-- C9 counterexample: on a frame with a pre-existing column `X_No_Yes` and
one encoded Yes/No feature `Gender`, `dummy_columns` returns the columns
`[X_No, Gender]` — the rename of `X_No_Yes` reintroduces a name ending in
`_No`, so the claimed invariant that no result column ends with `_No` fails. -/
theorem dummy_columns_no_suffix_fails :
    dummy_columns ["X_No_Yes".data, "Gender".data]
        (fun _ => ["No".data, "Yes".data]) ["Gender".data]
      = ["X_No".data, "Gender".data]
      ∧ ("_No".data).isSuffixOf ("X_No".data) = true := by
  refine ⟨by decide, by decide⟩

/-- C9 amended: `dummy_columns` drops every column of the whole concatenated
frame whose name ends with `_No` and removes the substring `_Yes` from every
remaining column name, pre-existing columns included — the result's columns
are exactly the `_Yes`-stripped survivors — but because the stripping runs
after the drop and is not iterated, a result column may again end with `_No`
or contain `_Yes`. -/
theorem dummy_columns_members (cols fl : List (List Char))
    (cats : List Char → List (List Char)) (c : List Char) :
    c ∈ dummy_columns cols cats fl
      ↔ ∃ c₀, c₀ ∈ cols ++ get_dummies cats fl
          ∧ fl.contains c₀ = false
          ∧ ("_No".data).isSuffixOf c₀ = false
          ∧ c = pyReplace c₀ ("_Yes".data) [] := by
  simp only [dummy_columns, List.mem_map, List.mem_filter, Bool.not_eq_true']
  constructor
  · rintro ⟨c₀, ⟨⟨hc₀, hfl⟩, hno⟩, rfl⟩
    exact ⟨c₀, hc₀, hfl, hno, rfl⟩
  · rintro ⟨c₀, hc₀, hfl, hno, rfl⟩
    exact ⟨c₀, ⟨⟨hc₀, hfl⟩, hno⟩, rfl⟩

theorem dummy_columns_members_witness :
    "X_No".data ∈ dummy_columns ["X_No_Yes".data]
        (fun _ => ["No".data, "Yes".data]) [] :=
  (dummy_columns_members ["X_No_Yes".data] []
      (fun _ => ["No".data, "Yes".data]) "X_No".data).mpr
    ⟨"X_No_Yes".data, by decide, by decide, by decide, by decide⟩
